import Mathlib

/-!
Verification of the storage facade in `api/extensions/ext_storage.py`:
the driver registry (`Storage.get_storage_factory`), the facade
operations (`save`, `load`, `load_once`, `load_stream`, `download`,
`exists`, `delete`), the initialization lifecycle (`init_app`) and the
`timeit` instrumentation wrapper, embedded shallowly.  Python
exceptions become an explicit `Exc` type with `Except`-valued
operations; log/print/construction side effects become an explicit
event trace.
-/

namespace ExtStorage

/-- Python exception values crossing the facade boundary.  The error
taxonomy kinds plus `attributeError`, which CPython raises when an
attribute of `None` is accessed (the uninitialized-facade case). -/
inductive Exc where
  | attributeError (msg : String)
  | notFound (msg : String)
  | transportError (msg : String)
  | localIOError (msg : String)
  | other (msg : String)
deriving DecidableEq, Repr

/-- The driver classes that `get_storage_factory` can return.  The
registry returns a class (constructor), not an instance, so the
codomain is this tag type rather than an instantiated driver. -/
inductive DriverCtor where
  | AwsS3Storage
  | AzureBlobStorage
  | AliyunOssStorage
  | GoogleCloudStorage
  | TencentCosStorage
  | OracleOCIStorage
  | HuaweiObsStorage
  | BaiduObsStorage
  | VolcengineTosStorage
  | SupabaseStorage
  | LocalFsStorage
deriving DecidableEq, Repr

/-- Modelled from the spec: `extensions/storage/storage_type.py` is not
in the sources; the spec describes the Backend Identifier as "an
enumerated value (e.g., `local`, `s3`, `azure-blob`, `oss`, `gcs`,
`cos`, `oci`, `obs`, `volcengine-tos`, `supabase`)".  Each member of
the `StorageType` enumeration is a distinct identifier string; the
list in the spec is non-exhaustive, so the Baidu member gets the value
`baidu-obs` in the same style. -/
def StorageType.S3 : String := "s3"

/-- Modelled from the spec: see `StorageType.S3`. -/
def StorageType.AZURE_BLOB : String := "azure-blob"

/-- Modelled from the spec: see `StorageType.S3`. -/
def StorageType.ALIYUN_OSS : String := "oss"

/-- Modelled from the spec: see `StorageType.S3`. -/
def StorageType.GOOGLE_STORAGE : String := "gcs"

/-- Modelled from the spec: see `StorageType.S3`. -/
def StorageType.TENCENT_COS : String := "cos"

/-- Modelled from the spec: see `StorageType.S3`. -/
def StorageType.OCI_STORAGE : String := "oci"

/-- Modelled from the spec: see `StorageType.S3`. -/
def StorageType.HUAWEI_OBS : String := "obs"

/-- Modelled from the spec: see `StorageType.S3`. -/
def StorageType.BAIDU_OBS : String := "baidu-obs"

/-- Modelled from the spec: see `StorageType.S3`. -/
def StorageType.VOLCENGINE_TOS : String := "volcengine-tos"

/-- Modelled from the spec: see `StorageType.S3` (the source spells
this member `SUPBASE`). -/
def StorageType.SUPBASE : String := "supabase"

/-- Modelled from the spec: see `StorageType.S3`. -/
def StorageType.LOCAL : String := "local"

/-- `Storage.get_storage_factory`: the Python `match` on
`storage_type` compares the string against each `StorageType` member
in order; the final case is `case StorageType.LOCAL | _:`, a wildcard
alternative, so every remaining string (the `local` identifier,
unknown identifiers, the empty string) returns `LocalFsStorage`. -/
def get_storage_factory (storage_type : String) : DriverCtor :=
  if storage_type = StorageType.S3 then DriverCtor.AwsS3Storage
  else if storage_type = StorageType.AZURE_BLOB then DriverCtor.AzureBlobStorage
  else if storage_type = StorageType.ALIYUN_OSS then DriverCtor.AliyunOssStorage
  else if storage_type = StorageType.GOOGLE_STORAGE then DriverCtor.GoogleCloudStorage
  else if storage_type = StorageType.TENCENT_COS then DriverCtor.TencentCosStorage
  else if storage_type = StorageType.OCI_STORAGE then DriverCtor.OracleOCIStorage
  else if storage_type = StorageType.HUAWEI_OBS then DriverCtor.HuaweiObsStorage
  else if storage_type = StorageType.BAIDU_OBS then DriverCtor.BaiduObsStorage
  else if storage_type = StorageType.VOLCENGINE_TOS then DriverCtor.VolcengineTosStorage
  else if storage_type = StorageType.SUPBASE then DriverCtor.SupabaseStorage
  else DriverCtor.LocalFsStorage

/-- One step of a Python generator as observed by its consumer: it
either yields a chunk of bytes or raises an exception (ending the
iteration). -/
inductive GenStep where
  | yield (chunk : List Nat)
  | throwE (e : Exc)
deriving DecidableEq, Repr

/-- A generator object: the (finite) sequence of steps it will take
when iterated.  Two generators are the same object iff they take the
same steps. -/
structure Gen where
  steps : List GenStep
deriving DecidableEq, Repr

/-- Fully iterating a generator: collect the yielded chunks, or
surface the exception a step raises lazily. -/
def iterateGen : List GenStep → Except Exc (List (List Nat))
  | [] => Except.ok []
  | GenStep.yield c :: rest => (iterateGen rest).map (fun cs => c :: cs)
  | GenStep.throwE e :: _ => Except.error e

/-- Observable side effects of the facade: driver construction
(`storage_factory()` in `init_app`), a `logging.exception` call, and
the `print` in `timeit`. -/
inductive Event where
  | construct (c : DriverCtor)
  | log (msg : String) (e : Exc)
  | print (msg : String)
deriving DecidableEq, Repr

/-- A driver instance (`BaseStorage`): one function per contract
operation, each returning either a value or a raised exception.  The
drivers themselves are external collaborators, so their behaviour is
an arbitrary inhabitant of this type. -/
structure BaseStorage where
  save : String → List Nat → Except Exc Unit
  load_once : String → Except Exc (List Nat)
  load_stream : String → Except Exc Gen
  download : String → String → Except Exc Unit
  exist : String → Except Exc Bool
  delete : String → Except Exc Unit

/-- The `Storage` facade object: its only field, `storage_runner`,
starts as `None` (`__init__`) and is set by `init_app`. -/
structure Storage where
  storage_runner : Option BaseStorage

/-- `Storage.__init__`: `self.storage_runner = None`. -/
def Storage.mkUninit : Storage := { storage_runner := none }

/-- `Storage.init_app`: resolves `dify_config.STORAGE_TYPE` (here the
`storage_type` argument) through `get_storage_factory`, calls the
factory inside the app context (instantiation is the external
`instantiate` function) and retains the instance in
`storage_runner`.  The construction is recorded as an event. -/
def Storage.init_app (_s : Storage) (storage_type : String)
    (instantiate : DriverCtor → BaseStorage) : Storage × List Event :=
  let c := get_storage_factory storage_type
  ({ storage_runner := some (instantiate c) }, [Event.construct c])

/-- The message CPython produces when an attribute of `None` is
accessed, as happens when an operation runs before `init_app`. -/
def noneAttr (attr : String) : Exc :=
  Exc.attributeError ("NoneType object has no attribute " ++ attr)

/-- `Storage.save`: `try: self.storage_runner.save(filename, data)`
`except Exception as e: logging.exception(...); raise e`.  The method
assigns nothing to `self`, so the state component of the result is the
input state.  With `storage_runner = None` the attribute access raises
inside the `try`, so that exception too is logged and re-raised. -/
def Storage.save (s : Storage) (filename : String) (data : List Nat) :
    Except Exc Unit × Storage × List Event :=
  match s.storage_runner with
  | none =>
      let e := noneAttr "save"
      (Except.error e, s, [Event.log "Failed to save file" e])
  | some runner =>
      match runner.save filename data with
      | Except.ok u => (Except.ok u, s, [])
      | Except.error e => (Except.error e, s, [Event.log "Failed to save file" e])

/-- `Storage.load_once`: forwards to `self.storage_runner.load_once`,
logging and re-raising any exception. -/
def Storage.load_once (s : Storage) (filename : String) :
    Except Exc (List Nat) × Storage × List Event :=
  match s.storage_runner with
  | none =>
      let e := noneAttr "load_once"
      (Except.error e, s, [Event.log "Failed to load_once file" e])
  | some runner =>
      match runner.load_once filename with
      | Except.ok b => (Except.ok b, s, [])
      | Except.error e => (Except.error e, s, [Event.log "Failed to load_once file" e])

/-- `Storage.load_stream`: forwards to
`self.storage_runner.load_stream` and returns the generator object the
driver produced, logging and re-raising any exception raised at that
call.  Nothing wraps the returned generator itself. -/
def Storage.load_stream (s : Storage) (filename : String) :
    Except Exc Gen × Storage × List Event :=
  match s.storage_runner with
  | none =>
      let e := noneAttr "load_stream"
      (Except.error e, s, [Event.log "Failed to load_stream file" e])
  | some runner =>
      match runner.load_stream filename with
      | Except.ok g => (Except.ok g, s, [])
      | Except.error e => (Except.error e, s, [Event.log "Failed to load_stream file" e])

/-- `Storage.load`: `if stream: return self.load_stream(filename)
else: return self.load_once(filename)` inside its own
`try`/`except`, so an exception from either path is logged a second
time and re-raised unchanged.  The Python return type is the union
`bytes | Generator`, embedded as a sum; `stream` defaults to
`False`. -/
def Storage.load (s : Storage) (filename : String)
    (stream : optParam Bool false) :
    Except Exc (List Nat ⊕ Gen) × Storage × List Event :=
  if stream then
    match Storage.load_stream s filename with
    | (Except.ok g, s2, evs) => (Except.ok (Sum.inr g), s2, evs)
    | (Except.error e, s2, evs) =>
        (Except.error e, s2, evs ++ [Event.log "Failed to load file" e])
  else
    match Storage.load_once s filename with
    | (Except.ok b, s2, evs) => (Except.ok (Sum.inl b), s2, evs)
    | (Except.error e, s2, evs) =>
        (Except.error e, s2, evs ++ [Event.log "Failed to load file" e])

/-- `Storage.download`: forwards to `self.storage_runner.download`,
logging and re-raising any exception. -/
def Storage.download (s : Storage) (filename target_filepath : String) :
    Except Exc Unit × Storage × List Event :=
  match s.storage_runner with
  | none =>
      let e := noneAttr "download"
      (Except.error e, s, [Event.log "Failed to download file" e])
  | some runner =>
      match runner.download filename target_filepath with
      | Except.ok u => (Except.ok u, s, [])
      | Except.error e => (Except.error e, s, [Event.log "Failed to download file" e])

/-- `Storage.exists` (named `exist` here because `exists` is a Lean
keyword): forwards to `self.storage_runner.exists`, logging and
re-raising any exception. -/
def Storage.exist (s : Storage) (filename : String) :
    Except Exc Bool × Storage × List Event :=
  match s.storage_runner with
  | none =>
      let e := noneAttr "exists"
      (Except.error e, s, [Event.log "Failed to check file exists" e])
  | some runner =>
      match runner.exist filename with
      | Except.ok b => (Except.ok b, s, [])
      | Except.error e => (Except.error e, s, [Event.log "Failed to check file exists" e])

/-- `Storage.delete`: forwards to `self.storage_runner.delete`,
logging and re-raising any exception. -/
def Storage.delete (s : Storage) (filename : String) :
    Except Exc Unit × Storage × List Event :=
  match s.storage_runner with
  | none =>
      let e := noneAttr "delete"
      (Except.error e, s, [Event.log "Failed to delete file" e])
  | some runner =>
      match runner.delete filename with
      | Except.ok u => (Except.ok u, s, [])
      | Except.error e => (Except.error e, s, [Event.log "Failed to delete file" e])

/-- The `timeit` decorator: records a start time, calls the wrapped
function, records an end time, prints the elapsed time and returns the
wrapped function result unchanged.  If the wrapped call raises, the
exception propagates before the print.  The two clock readings are
explicit arguments; the wrapped function yields a result and its own
events. -/
def timeit (funcName : String) (start_time end_time : Nat)
    (func : α → Except Exc β × List Event) (x : α) :
    Except Exc β × List Event :=
  match func x with
  | (Except.ok result, evs) =>
      let elapsed_time := end_time - start_time
      (Except.ok result,
        evs ++ [Event.print ("Function " ++ funcName ++ " executed in "
          ++ toString elapsed_time ++ " seconds.")])
  | (Except.error e, evs) => (Except.error e, evs)

/-- The calls an application can make on the facade object: the
initialization hook plus the seven public operations. -/
inductive Action where
  | init_app (storage_type : String)
  | save (filename : String) (data : List Nat)
  | load (filename : String) (stream : Bool)
  | load_once (filename : String)
  | load_stream (filename : String)
  | download (filename target_filepath : String)
  | exist (filename : String)
  | delete (filename : String)
deriving DecidableEq, Repr

/-- Whether an action is the initialization hook. -/
def Action.isInit : Action → Bool
  | Action.init_app _ => true
  | _ => false

/-- Running one action against the facade state, discarding the
operation result and keeping the state and the emitted events. -/
def step (instantiate : DriverCtor → BaseStorage) (s : Storage) :
    Action → Storage × List Event
  | Action.init_app cfg => Storage.init_app s cfg instantiate
  | Action.save fn d => (Storage.save s fn d).2
  | Action.load fn st => (Storage.load s fn st).2
  | Action.load_once fn => (Storage.load_once s fn).2
  | Action.load_stream fn => (Storage.load_stream s fn).2
  | Action.download fn tgt => (Storage.download s fn tgt).2
  | Action.exist fn => (Storage.exist s fn).2
  | Action.delete fn => (Storage.delete s fn).2

/-- Running a sequence of actions, accumulating the event trace. -/
def runActions (instantiate : DriverCtor → BaseStorage) (s : Storage) :
    List Action → Storage × List Event
  | [] => (s, [])
  | a :: as =>
      let r := step instantiate s a
      let rest := runActions instantiate r.1 as
      (rest.1, r.2 ++ rest.2)

/-- How many driver constructions an event trace contains. -/
def constructCount : List Event → Nat
  | [] => 0
  | Event.construct _ :: evs => constructCount evs + 1
  | _ :: evs => constructCount evs

/-- A concrete generator yielding two chunks, for instantiating the
theorems. -/
def demoGen : Gen := { steps := [GenStep.yield [104], GenStep.yield [105]] }

/-- A concrete driver instance, for instantiating the theorems: most
operations succeed; `delete` raises, exercising the re-raise path. -/
def demoRunner : BaseStorage where
  save := fun _ _ => Except.ok ()
  load_once := fun _ => Except.ok [104, 105]
  load_stream := fun _ => Except.ok demoGen
  download := fun _ _ => Except.ok ()
  exist := fun _ => Except.ok true
  delete := fun fn => Except.error (Exc.notFound fn)

/-- A facade in the Initialized state holding `demoRunner`. -/
def demoStorage : Storage := { storage_runner := some demoRunner }

theorem save_state (s : Storage) (fn : String) (d : List Nat) :
    (Storage.save s fn d).2.1 = s := by
  obtain ⟨r⟩ := s
  cases r with
  | none => rfl
  | some runner => cases hs : runner.save fn d <;> simp [Storage.save, hs]

theorem save_fwd (s : Storage) (runner : BaseStorage)
    (h : s.storage_runner = some runner) (fn : String) (d : List Nat) :
    (Storage.save s fn d).1 = runner.save fn d := by
  obtain ⟨r⟩ := s
  cases h
  cases hs : runner.save fn d <;> simp [Storage.save, hs]

theorem save_constructs (s : Storage) (fn : String) (d : List Nat) :
    constructCount (Storage.save s fn d).2.2 = 0 := by
  obtain ⟨r⟩ := s
  cases r with
  | none => rfl
  | some runner =>
      cases hs : runner.save fn d <;> simp [Storage.save, hs, constructCount]

theorem load_once_state (s : Storage) (fn : String) :
    (Storage.load_once s fn).2.1 = s := by
  obtain ⟨r⟩ := s
  cases r with
  | none => rfl
  | some runner => cases hs : runner.load_once fn <;> simp [Storage.load_once, hs]

theorem load_once_fwd (s : Storage) (runner : BaseStorage)
    (h : s.storage_runner = some runner) (fn : String) :
    (Storage.load_once s fn).1 = runner.load_once fn := by
  obtain ⟨r⟩ := s
  cases h
  cases hs : runner.load_once fn <;> simp [Storage.load_once, hs]

theorem load_once_constructs (s : Storage) (fn : String) :
    constructCount (Storage.load_once s fn).2.2 = 0 := by
  obtain ⟨r⟩ := s
  cases r with
  | none => rfl
  | some runner =>
      cases hs : runner.load_once fn <;> simp [Storage.load_once, hs, constructCount]

theorem load_stream_state (s : Storage) (fn : String) :
    (Storage.load_stream s fn).2.1 = s := by
  obtain ⟨r⟩ := s
  cases r with
  | none => rfl
  | some runner => cases hs : runner.load_stream fn <;> simp [Storage.load_stream, hs]

theorem load_stream_fwd (s : Storage) (runner : BaseStorage)
    (h : s.storage_runner = some runner) (fn : String) :
    (Storage.load_stream s fn).1 = runner.load_stream fn := by
  obtain ⟨r⟩ := s
  cases h
  cases hs : runner.load_stream fn <;> simp [Storage.load_stream, hs]

theorem load_stream_constructs (s : Storage) (fn : String) :
    constructCount (Storage.load_stream s fn).2.2 = 0 := by
  obtain ⟨r⟩ := s
  cases r with
  | none => rfl
  | some runner =>
      cases hs : runner.load_stream fn <;> simp [Storage.load_stream, hs, constructCount]

theorem download_state (s : Storage) (fn tgt : String) :
    (Storage.download s fn tgt).2.1 = s := by
  obtain ⟨r⟩ := s
  cases r with
  | none => rfl
  | some runner => cases hs : runner.download fn tgt <;> simp [Storage.download, hs]

theorem download_fwd (s : Storage) (runner : BaseStorage)
    (h : s.storage_runner = some runner) (fn tgt : String) :
    (Storage.download s fn tgt).1 = runner.download fn tgt := by
  obtain ⟨r⟩ := s
  cases h
  cases hs : runner.download fn tgt <;> simp [Storage.download, hs]

theorem download_constructs (s : Storage) (fn tgt : String) :
    constructCount (Storage.download s fn tgt).2.2 = 0 := by
  obtain ⟨r⟩ := s
  cases r with
  | none => rfl
  | some runner =>
      cases hs : runner.download fn tgt <;> simp [Storage.download, hs, constructCount]

theorem exist_state (s : Storage) (fn : String) :
    (Storage.exist s fn).2.1 = s := by
  obtain ⟨r⟩ := s
  cases r with
  | none => rfl
  | some runner => cases hs : runner.exist fn <;> simp [Storage.exist, hs]

theorem exist_fwd (s : Storage) (runner : BaseStorage)
    (h : s.storage_runner = some runner) (fn : String) :
    (Storage.exist s fn).1 = runner.exist fn := by
  obtain ⟨r⟩ := s
  cases h
  cases hs : runner.exist fn <;> simp [Storage.exist, hs]

theorem exist_constructs (s : Storage) (fn : String) :
    constructCount (Storage.exist s fn).2.2 = 0 := by
  obtain ⟨r⟩ := s
  cases r with
  | none => rfl
  | some runner =>
      cases hs : runner.exist fn <;> simp [Storage.exist, hs, constructCount]

theorem delete_state (s : Storage) (fn : String) :
    (Storage.delete s fn).2.1 = s := by
  obtain ⟨r⟩ := s
  cases r with
  | none => rfl
  | some runner => cases hs : runner.delete fn <;> simp [Storage.delete, hs]

theorem delete_fwd (s : Storage) (runner : BaseStorage)
    (h : s.storage_runner = some runner) (fn : String) :
    (Storage.delete s fn).1 = runner.delete fn := by
  obtain ⟨r⟩ := s
  cases h
  cases hs : runner.delete fn <;> simp [Storage.delete, hs]

theorem delete_constructs (s : Storage) (fn : String) :
    constructCount (Storage.delete s fn).2.2 = 0 := by
  obtain ⟨r⟩ := s
  cases r with
  | none => rfl
  | some runner =>
      cases hs : runner.delete fn <;> simp [Storage.delete, hs, constructCount]

theorem constructCount_append (l1 l2 : List Event) :
    constructCount (l1 ++ l2) = constructCount l1 + constructCount l2 := by
  induction l1 with
  | nil => simp [constructCount]
  | cons e l ih =>
      cases e <;> simp [constructCount, ih]
      omega

theorem load_fst_true (s : Storage) (fn : String) :
    (Storage.load s fn true).1 = Sum.inr <$> (Storage.load_stream s fn).1 := by
  rcases hres : Storage.load_stream s fn with ⟨res, s2, evs⟩
  cases res <;> simp [Storage.load, hres, Except.map]

theorem load_fst_false (s : Storage) (fn : String) :
    (Storage.load s fn false).1 = Sum.inl <$> (Storage.load_once s fn).1 := by
  rcases hres : Storage.load_once s fn with ⟨res, s2, evs⟩
  cases res <;> simp [Storage.load, hres, Except.map]

theorem load_state (s : Storage) (fn : String) (st : Bool) :
    (Storage.load s fn st).2.1 = s := by
  cases st with
  | false =>
      have h2 := load_once_state s fn
      rcases hres : Storage.load_once s fn with ⟨res, s2, evs⟩
      rw [hres] at h2
      cases res <;> simp_all [Storage.load]
  | true =>
      have h2 := load_stream_state s fn
      rcases hres : Storage.load_stream s fn with ⟨res, s2, evs⟩
      rw [hres] at h2
      cases res <;> simp_all [Storage.load]

theorem load_constructs (s : Storage) (fn : String) (st : Bool) :
    constructCount (Storage.load s fn st).2.2 = 0 := by
  cases st with
  | false =>
      have h2 := load_once_constructs s fn
      rcases hres : Storage.load_once s fn with ⟨res, s2, evs⟩
      rw [hres] at h2
      cases res <;> simp_all [Storage.load, constructCount, constructCount_append]
  | true =>
      have h2 := load_stream_constructs s fn
      rcases hres : Storage.load_stream s fn with ⟨res, s2, evs⟩
      rw [hres] at h2
      cases res <;> simp_all [Storage.load, constructCount, constructCount_append]

theorem step_nonInit_state (inst : DriverCtor → BaseStorage) (s : Storage)
    (a : Action) (ha : a.isInit = false) : (step inst s a).1 = s := by
  cases a with
  | init_app cfg => simp [Action.isInit] at ha
  | save fn d => exact save_state s fn d
  | load fn st => exact load_state s fn st
  | load_once fn => exact load_once_state s fn
  | load_stream fn => exact load_stream_state s fn
  | download fn tgt => exact download_state s fn tgt
  | exist fn => exact exist_state s fn
  | delete fn => exact delete_state s fn

theorem step_nonInit_constructs (inst : DriverCtor → BaseStorage) (s : Storage)
    (a : Action) (ha : a.isInit = false) : constructCount (step inst s a).2 = 0 := by
  cases a with
  | init_app cfg => simp [Action.isInit] at ha
  | save fn d => exact save_constructs s fn d
  | load fn st => exact load_constructs s fn st
  | load_once fn => exact load_once_constructs s fn
  | load_stream fn => exact load_stream_constructs s fn
  | download fn tgt => exact download_constructs s fn tgt
  | exist fn => exact exist_constructs s fn
  | delete fn => exact delete_constructs s fn

theorem runActions_nonInit_state (inst : DriverCtor → BaseStorage) (s : Storage)
    (as : List Action) (h : ∀ a ∈ as, a.isInit = false) :
    (runActions inst s as).1 = s := by
  induction as with
  | nil => rfl
  | cons a as ih =>
      have ha : a.isInit = false := h a (List.mem_cons_self a as)
      have hrest : ∀ b ∈ as, b.isInit = false :=
        fun b hb => h b (List.mem_cons_of_mem a hb)
      simp only [runActions]
      rw [step_nonInit_state inst s a ha]
      exact ih hrest

theorem runActions_nonInit_constructs (inst : DriverCtor → BaseStorage) (s : Storage)
    (as : List Action) (h : ∀ a ∈ as, a.isInit = false) :
    constructCount (runActions inst s as).2 = 0 := by
  induction as generalizing s with
  | nil => rfl
  | cons a as ih =>
      have ha : a.isInit = false := h a (List.mem_cons_self a as)
      have hrest : ∀ b ∈ as, b.isInit = false :=
        fun b hb => h b (List.mem_cons_of_mem a hb)
      simp only [runActions, constructCount_append]
      rw [step_nonInit_constructs inst s a ha, ih _ hrest]

/-- C1: for every Backend Identifier string the registry resolves to a
constructor (the codomain is the constructor tag type, never an
instance, and the Python `match` ends in a wildcard so no string falls
through to an implicit `None`); each supported identifier yields its
matching constructor, `"s3"` yields the S3 constructor, and any string
distinct from the ten non-local members — including `"local"`, the
empty string and unknown strings — yields the local-filesystem
constructor. -/
theorem registry_total_local_fallback (s : String)
    (h1 : s ≠ StorageType.S3) (h2 : s ≠ StorageType.AZURE_BLOB)
    (h3 : s ≠ StorageType.ALIYUN_OSS) (h4 : s ≠ StorageType.GOOGLE_STORAGE)
    (h5 : s ≠ StorageType.TENCENT_COS) (h6 : s ≠ StorageType.OCI_STORAGE)
    (h7 : s ≠ StorageType.HUAWEI_OBS) (h8 : s ≠ StorageType.BAIDU_OBS)
    (h9 : s ≠ StorageType.VOLCENGINE_TOS) (h10 : s ≠ StorageType.SUPBASE) :
    get_storage_factory StorageType.S3 = DriverCtor.AwsS3Storage ∧
    get_storage_factory StorageType.AZURE_BLOB = DriverCtor.AzureBlobStorage ∧
    get_storage_factory StorageType.ALIYUN_OSS = DriverCtor.AliyunOssStorage ∧
    get_storage_factory StorageType.GOOGLE_STORAGE = DriverCtor.GoogleCloudStorage ∧
    get_storage_factory StorageType.TENCENT_COS = DriverCtor.TencentCosStorage ∧
    get_storage_factory StorageType.OCI_STORAGE = DriverCtor.OracleOCIStorage ∧
    get_storage_factory StorageType.HUAWEI_OBS = DriverCtor.HuaweiObsStorage ∧
    get_storage_factory StorageType.BAIDU_OBS = DriverCtor.BaiduObsStorage ∧
    get_storage_factory StorageType.VOLCENGINE_TOS = DriverCtor.VolcengineTosStorage ∧
    get_storage_factory StorageType.SUPBASE = DriverCtor.SupabaseStorage ∧
    get_storage_factory StorageType.LOCAL = DriverCtor.LocalFsStorage ∧
    get_storage_factory "" = DriverCtor.LocalFsStorage ∧
    get_storage_factory s = DriverCtor.LocalFsStorage := by
  refine ⟨by decide, by decide, by decide, by decide, by decide, by decide,
    by decide, by decide, by decide, by decide, by decide, by decide, ?_⟩
  simp [get_storage_factory, h1, h2, h3, h4, h5, h6, h7, h8, h9, h10]

/-- Witness for C1 at the unknown identifier `"bogus-name"`. -/
theorem registry_total_local_fallback_witness :
    get_storage_factory StorageType.S3 = DriverCtor.AwsS3Storage ∧
    get_storage_factory StorageType.AZURE_BLOB = DriverCtor.AzureBlobStorage ∧
    get_storage_factory StorageType.ALIYUN_OSS = DriverCtor.AliyunOssStorage ∧
    get_storage_factory StorageType.GOOGLE_STORAGE = DriverCtor.GoogleCloudStorage ∧
    get_storage_factory StorageType.TENCENT_COS = DriverCtor.TencentCosStorage ∧
    get_storage_factory StorageType.OCI_STORAGE = DriverCtor.OracleOCIStorage ∧
    get_storage_factory StorageType.HUAWEI_OBS = DriverCtor.HuaweiObsStorage ∧
    get_storage_factory StorageType.BAIDU_OBS = DriverCtor.BaiduObsStorage ∧
    get_storage_factory StorageType.VOLCENGINE_TOS = DriverCtor.VolcengineTosStorage ∧
    get_storage_factory StorageType.SUPBASE = DriverCtor.SupabaseStorage ∧
    get_storage_factory StorageType.LOCAL = DriverCtor.LocalFsStorage ∧
    get_storage_factory "" = DriverCtor.LocalFsStorage ∧
    get_storage_factory "bogus-name" = DriverCtor.LocalFsStorage :=
  registry_total_local_fallback "bogus-name" (by decide) (by decide) (by decide)
    (by decide) (by decide) (by decide) (by decide) (by decide) (by decide) (by decide)

/-- C2: when the facade holds a driver, every operation returns
exactly the driver's result for the same arguments; in particular a
failure raised by the driver is re-raised as the very same exception
value (the `Except` value is propagated unchanged, never downgraded,
swallowed or replaced), and a success value is returned as is.  `load`
is covered in both modes via its dispatch to `load_once` and
`load_stream`. -/
theorem facade_reraises_driver_failures (s : Storage) (runner : BaseStorage)
    (fn : String) (data : List Nat) (tgt : String)
    (h : s.storage_runner = some runner) :
    (Storage.save s fn data).1 = runner.save fn data ∧
    (Storage.load_once s fn).1 = runner.load_once fn ∧
    (Storage.load_stream s fn).1 = runner.load_stream fn ∧
    (Storage.download s fn tgt).1 = runner.download fn tgt ∧
    (Storage.exist s fn).1 = runner.exist fn ∧
    (Storage.delete s fn).1 = runner.delete fn ∧
    (Storage.load s fn false).1 = Sum.inl <$> runner.load_once fn ∧
    (Storage.load s fn true).1 = Sum.inr <$> runner.load_stream fn := by
  refine ⟨save_fwd s runner h fn data, load_once_fwd s runner h fn,
    load_stream_fwd s runner h fn, download_fwd s runner h fn tgt,
    exist_fwd s runner h fn, delete_fwd s runner h fn, ?_, ?_⟩
  · rw [load_fst_false, load_once_fwd s runner h fn]
  · rw [load_fst_true, load_stream_fwd s runner h fn]

/-- Witness for C2 on `demoStorage`; its driver's `delete` raises a
`notFound` exception, which the facade's `delete` returns unchanged. -/
theorem facade_reraises_driver_failures_witness :
    (Storage.save demoStorage "a.txt" [104]).1 = demoRunner.save "a.txt" [104] ∧
    (Storage.load_once demoStorage "a.txt").1 = demoRunner.load_once "a.txt" ∧
    (Storage.load_stream demoStorage "a.txt").1 = demoRunner.load_stream "a.txt" ∧
    (Storage.download demoStorage "a.txt" "tmp").1 = demoRunner.download "a.txt" "tmp" ∧
    (Storage.exist demoStorage "a.txt").1 = demoRunner.exist "a.txt" ∧
    (Storage.delete demoStorage "a.txt").1 = demoRunner.delete "a.txt" ∧
    (Storage.load demoStorage "a.txt" false).1 = Sum.inl <$> demoRunner.load_once "a.txt" ∧
    (Storage.load demoStorage "a.txt" true).1 = Sum.inr <$> demoRunner.load_stream "a.txt" :=
  facade_reraises_driver_failures demoStorage demoRunner "a.txt" [104] "tmp" rfl

/-- C3: `load` with `stream = true` returns (or raises) exactly what
`load_stream` returns, `load` with `stream = false` exactly what
`load_once` returns (the value injected into the `bytes | Generator`
union), the `stream` flag defaults to `false`, and every other
operation is a 1:1 forward of the driver's same-named operation. -/
theorem load_mode_dispatch (s : Storage) (runner : BaseStorage)
    (fn : String) (data : List Nat) (tgt : String)
    (h : s.storage_runner = some runner) :
    (Storage.load s fn true).1 = Sum.inr <$> (Storage.load_stream s fn).1 ∧
    (Storage.load s fn false).1 = Sum.inl <$> (Storage.load_once s fn).1 ∧
    Storage.load s fn = Storage.load s fn false ∧
    (Storage.save s fn data).1 = runner.save fn data ∧
    (Storage.load_once s fn).1 = runner.load_once fn ∧
    (Storage.load_stream s fn).1 = runner.load_stream fn ∧
    (Storage.download s fn tgt).1 = runner.download fn tgt ∧
    (Storage.exist s fn).1 = runner.exist fn ∧
    (Storage.delete s fn).1 = runner.delete fn :=
  ⟨load_fst_true s fn, load_fst_false s fn, rfl, save_fwd s runner h fn data,
    load_once_fwd s runner h fn, load_stream_fwd s runner h fn,
    download_fwd s runner h fn tgt, exist_fwd s runner h fn,
    delete_fwd s runner h fn⟩

/-- Witness for C3 on `demoStorage`. -/
theorem load_mode_dispatch_witness :
    (Storage.load demoStorage "a.txt" true).1
      = Sum.inr <$> (Storage.load_stream demoStorage "a.txt").1 ∧
    (Storage.load demoStorage "a.txt" false).1
      = Sum.inl <$> (Storage.load_once demoStorage "a.txt").1 ∧
    Storage.load demoStorage "a.txt" = Storage.load demoStorage "a.txt" false ∧
    (Storage.save demoStorage "a.txt" [104]).1 = demoRunner.save "a.txt" [104] ∧
    (Storage.load_once demoStorage "a.txt").1 = demoRunner.load_once "a.txt" ∧
    (Storage.load_stream demoStorage "a.txt").1 = demoRunner.load_stream "a.txt" ∧
    (Storage.download demoStorage "a.txt" "tmp").1 = demoRunner.download "a.txt" "tmp" ∧
    (Storage.exist demoStorage "a.txt").1 = demoRunner.exist "a.txt" ∧
    (Storage.delete demoStorage "a.txt").1 = demoRunner.delete "a.txt" :=
  load_mode_dispatch demoStorage demoRunner "a.txt" [104] "tmp" rfl

/-- C4: running `init_app` on the uninitialized facade and then any
sequence of facade operations constructs exactly one driver instance
in the whole event trace, leaves the facade state (hence the retained
driver reference) unchanged across all operations, and the retained
driver is the one produced by instantiating the registry's
constructor. -/
theorem single_construction_lifetime (inst : DriverCtor → BaseStorage)
    (cfg : String) (as : List Action) (s1 : Storage) (ev1 : List Event)
    (hinit : Storage.init_app Storage.mkUninit cfg inst = (s1, ev1))
    (h : ∀ a ∈ as, a.isInit = false) :
    constructCount (ev1 ++ (runActions inst s1 as).2) = 1 ∧
    (runActions inst s1 as).1 = s1 ∧
    s1.storage_runner = some (inst (get_storage_factory cfg)) := by
  have hs1 : s1 = { storage_runner := some (inst (get_storage_factory cfg)) } :=
    (congrArg Prod.fst hinit).symm
  have he1 : ev1 = [Event.construct (get_storage_factory cfg)] :=
    (congrArg (fun p => p.2) hinit).symm
  subst hs1
  refine ⟨?_, runActions_nonInit_state inst _ as h, rfl⟩
  rw [constructCount_append, he1,
    runActions_nonInit_constructs inst _ as h]
  rfl

/-- Witness for C4: initialize with `"s3"` and run two subsequent
operations; one construction in the trace, state unchanged. -/
theorem single_construction_lifetime_witness :
    constructCount ([Event.construct DriverCtor.AwsS3Storage] ++
      (runActions (fun _ => demoRunner) { storage_runner := some demoRunner }
        [Action.save "a.txt" [104], Action.exist "a.txt"]).2) = 1 ∧
    (runActions (fun _ => demoRunner) { storage_runner := some demoRunner }
      [Action.save "a.txt" [104], Action.exist "a.txt"]).1
      = { storage_runner := some demoRunner } ∧
    ({ storage_runner := some demoRunner } : Storage).storage_runner
      = some demoRunner :=
  single_construction_lifetime (fun _ => demoRunner) "s3"
    [Action.save "a.txt" [104], Action.exist "a.txt"]
    { storage_runner := some demoRunner }
    [Event.construct DriverCtor.AwsS3Storage] rfl (by decide)

/-- C5: no facade operation converts a driver failure into an
ordinary return value: each operation result is `ok` exactly when the
driver's is, with the same value.  In particular `exists` returns the
driver's boolean unchanged — `false` only when the driver reported the
key missing — and a transport failure raised by the driver's existence
check is re-raised, never collapsed into `false`. -/
theorem exist_boolean_no_sentinel (s : Storage) (runner : BaseStorage)
    (fn : String) (data : List Nat) (tgt : String)
    (h : s.storage_runner = some runner) :
    (Storage.exist s fn).1 = runner.exist fn ∧
    (Storage.save s fn data).1.isOk = (runner.save fn data).isOk ∧
    (Storage.load_once s fn).1.isOk = (runner.load_once fn).isOk ∧
    (Storage.load_stream s fn).1.isOk = (runner.load_stream fn).isOk ∧
    (Storage.load s fn false).1.isOk = (runner.load_once fn).isOk ∧
    (Storage.load s fn true).1.isOk = (runner.load_stream fn).isOk ∧
    (Storage.download s fn tgt).1.isOk = (runner.download fn tgt).isOk ∧
    (Storage.delete s fn).1.isOk = (runner.delete fn).isOk := by
  have hlo := load_once_fwd s runner h fn
  have hls := load_stream_fwd s runner h fn
  refine ⟨exist_fwd s runner h fn, ?_, ?_, ?_, ?_, ?_, ?_, ?_⟩
  · rw [save_fwd s runner h fn data]
  · rw [hlo]
  · rw [hls]
  · rw [load_fst_false, hlo]; cases runner.load_once fn <;> rfl
  · rw [load_fst_true, hls]; cases runner.load_stream fn <;> rfl
  · rw [download_fwd s runner h fn tgt]
  · rw [delete_fwd s runner h fn]

/-- Witness for C5 on `demoStorage` (whose driver's `delete` raises:
the facade's `delete` is not `ok` either). -/
theorem exist_boolean_no_sentinel_witness :
    (Storage.exist demoStorage "a.txt").1 = demoRunner.exist "a.txt" ∧
    (Storage.save demoStorage "a.txt" [104]).1.isOk
      = (demoRunner.save "a.txt" [104]).isOk ∧
    (Storage.load_once demoStorage "a.txt").1.isOk
      = (demoRunner.load_once "a.txt").isOk ∧
    (Storage.load_stream demoStorage "a.txt").1.isOk
      = (demoRunner.load_stream "a.txt").isOk ∧
    (Storage.load demoStorage "a.txt" false).1.isOk
      = (demoRunner.load_once "a.txt").isOk ∧
    (Storage.load demoStorage "a.txt" true).1.isOk
      = (demoRunner.load_stream "a.txt").isOk ∧
    (Storage.download demoStorage "a.txt" "tmp").1.isOk
      = (demoRunner.download "a.txt" "tmp").isOk ∧
    (Storage.delete demoStorage "a.txt").1.isOk
      = (demoRunner.delete "a.txt").isOk :=
  exist_boolean_no_sentinel demoStorage demoRunner "a.txt" [104] "tmp" rfl

/-- C6: the facade's lifecycle has a single forward transition: from
the `__init__` state, `init_app` resolves the identifier through the
registry and retains the instantiated driver; every non-init operation
leaves the state (hence the retained driver) unchanged; no call can
make an initialized facade uninitialized again; and from the
uninitialized state, only the initialization call reaches the
initialized state. -/
theorem lifecycle_single_transition (inst : DriverCtor → BaseStorage)
    (cfg : String) (s : Storage) (a b : Action) (ha : a.isInit = false) :
    (Storage.init_app Storage.mkUninit cfg inst).1.storage_runner
      = some (inst (get_storage_factory cfg)) ∧
    (step inst s a).1 = s ∧
    ((step inst s b).1.storage_runner = none → s.storage_runner = none) ∧
    (s.storage_runner = none → (step inst s b).1.storage_runner ≠ none →
      b.isInit = true) := by
  refine ⟨rfl, step_nonInit_state inst s a ha, ?_, ?_⟩
  · intro hnone
    cases b with
    | init_app cfg2 => simp [step, Storage.init_app] at hnone
    | save fn d => rwa [step_nonInit_state inst s (Action.save fn d) rfl] at hnone
    | load fn st => rwa [step_nonInit_state inst s (Action.load fn st) rfl] at hnone
    | load_once fn => rwa [step_nonInit_state inst s (Action.load_once fn) rfl] at hnone
    | load_stream fn => rwa [step_nonInit_state inst s (Action.load_stream fn) rfl] at hnone
    | download fn tgt => rwa [step_nonInit_state inst s (Action.download fn tgt) rfl] at hnone
    | exist fn => rwa [step_nonInit_state inst s (Action.exist fn) rfl] at hnone
    | delete fn => rwa [step_nonInit_state inst s (Action.delete fn) rfl] at hnone
  · intro hnone hsome
    cases b with
    | init_app cfg2 => rfl
    | save fn d =>
        rw [step_nonInit_state inst s (Action.save fn d) rfl] at hsome
        exact absurd hnone hsome
    | load fn st =>
        rw [step_nonInit_state inst s (Action.load fn st) rfl] at hsome
        exact absurd hnone hsome
    | load_once fn =>
        rw [step_nonInit_state inst s (Action.load_once fn) rfl] at hsome
        exact absurd hnone hsome
    | load_stream fn =>
        rw [step_nonInit_state inst s (Action.load_stream fn) rfl] at hsome
        exact absurd hnone hsome
    | download fn tgt =>
        rw [step_nonInit_state inst s (Action.download fn tgt) rfl] at hsome
        exact absurd hnone hsome
    | exist fn =>
        rw [step_nonInit_state inst s (Action.exist fn) rfl] at hsome
        exact absurd hnone hsome
    | delete fn =>
        rw [step_nonInit_state inst s (Action.delete fn) rfl] at hsome
        exact absurd hnone hsome

/-- Witness for C6 with a `save` step and a `delete` probe action. -/
theorem lifecycle_single_transition_witness :
    (Storage.init_app Storage.mkUninit "s3" (fun _ => demoRunner)).1.storage_runner
      = some ((fun _ => demoRunner) (get_storage_factory "s3")) ∧
    (step (fun _ => demoRunner) demoStorage (Action.save "a.txt" [104])).1
      = demoStorage ∧
    ((step (fun _ => demoRunner) demoStorage (Action.delete "a.txt")).1.storage_runner
        = none → demoStorage.storage_runner = none) ∧
    (demoStorage.storage_runner = none →
      (step (fun _ => demoRunner) demoStorage (Action.delete "a.txt")).1.storage_runner
        ≠ none → (Action.delete "a.txt").isInit = true) :=
  lifecycle_single_transition (fun _ => demoRunner) "s3" demoStorage
    (Action.save "a.txt" [104]) (Action.delete "a.txt") rfl

/-- C7: the facade is a pure pass-through for payload data: `save`
hands the filename and the byte payload to the driver unmodified (the
facade result is the driver's result at the very same arguments), and
`load_once` returns exactly the byte sequence the driver's `load_once`
produced, with no buffering or transformation in between. -/
theorem payload_pass_through (s : Storage) (runner : BaseStorage)
    (fn : String) (data : List Nat) (h : s.storage_runner = some runner) :
    (Storage.save s fn data).1 = runner.save fn data ∧
    (Storage.load_once s fn).1 = runner.load_once fn :=
  ⟨save_fwd s runner h fn data, load_once_fwd s runner h fn⟩

/-- Witness for C7 on `demoStorage`. -/
theorem payload_pass_through_witness :
    (Storage.save demoStorage "a.txt" [104, 105]).1
      = demoRunner.save "a.txt" [104, 105] ∧
    (Storage.load_once demoStorage "a.txt").1 = demoRunner.load_once "a.txt" :=
  payload_pass_through demoStorage demoRunner "a.txt" [104, 105] rfl

theorem timeit_fst {α β : Type} (funcName : String) (t0 t1 : Nat)
    (f : α → Except Exc β × List Event) (x : α) :
    (timeit funcName t0 t1 f x).1 = (f x).1 := by
  rcases hf : f x with ⟨res, evs⟩
  cases res <;> simp [timeit, hf]

/-- C8: the `timeit` latency instrumentation never affects an
operation's outcome: for any wrapped function the returned value or
raised failure is exactly that of the bare call (on failure the
exception propagates before the print), and in particular wrapping
each facade operation leaves its result identical to the bare forward
to the driver. -/
theorem timeit_frame {α β : Type} (funcName : String) (t0 t1 : Nat)
    (f : α → Except Exc β × List Event) (x : α) (s : Storage)
    (fn : String) (data : List Nat) (tgt : String) (st : Bool) :
    (timeit funcName t0 t1 f x).1 = (f x).1 ∧
    (timeit "save" t0 t1
      (fun p => ((Storage.save s p.1 p.2).1, (Storage.save s p.1 p.2).2.2))
      (fn, data)).1 = (Storage.save s fn data).1 ∧
    (timeit "load" t0 t1
      (fun p => ((Storage.load s p.1 p.2).1, (Storage.load s p.1 p.2).2.2))
      (fn, st)).1 = (Storage.load s fn st).1 ∧
    (timeit "load_once" t0 t1
      (fun q => ((Storage.load_once s q).1, (Storage.load_once s q).2.2))
      fn).1 = (Storage.load_once s fn).1 ∧
    (timeit "load_stream" t0 t1
      (fun q => ((Storage.load_stream s q).1, (Storage.load_stream s q).2.2))
      fn).1 = (Storage.load_stream s fn).1 ∧
    (timeit "download" t0 t1
      (fun p => ((Storage.download s p.1 p.2).1, (Storage.download s p.1 p.2).2.2))
      (fn, tgt)).1 = (Storage.download s fn tgt).1 ∧
    (timeit "exists" t0 t1
      (fun q => ((Storage.exist s q).1, (Storage.exist s q).2.2))
      fn).1 = (Storage.exist s fn).1 ∧
    (timeit "delete" t0 t1
      (fun q => ((Storage.delete s q).1, (Storage.delete s q).2.2))
      fn).1 = (Storage.delete s fn).1 :=
  ⟨timeit_fst funcName t0 t1 f x,
    timeit_fst "save" t0 t1 _ (fn, data),
    timeit_fst "load" t0 t1 _ (fn, st),
    timeit_fst "load_once" t0 t1 _ fn,
    timeit_fst "load_stream" t0 t1 _ fn,
    timeit_fst "download" t0 t1 _ (fn, tgt),
    timeit_fst "exists" t0 t1 _ fn,
    timeit_fst "delete" t0 t1 _ fn⟩

/-- C9: every facade operation invoked on the uninitialized facade
(`storage_runner` still the initial `None`) raises: the attribute
access on `None` throws, the wrapper logs it and re-raises, so the
result is the `attributeError`, the state is unchanged (still
uninitialized) and the trace holds only log events — no construction,
no driver call, no storage effect.  `load` re-logs the error of the
path it dispatched to. -/
theorem uninitialized_raises (s : Storage) (fn : String) (data : List Nat)
    (tgt : String) (h : s.storage_runner = none) :
    Storage.save s fn data = (Except.error (noneAttr "save"), s,
      [Event.log "Failed to save file" (noneAttr "save")]) ∧
    Storage.load_once s fn = (Except.error (noneAttr "load_once"), s,
      [Event.log "Failed to load_once file" (noneAttr "load_once")]) ∧
    Storage.load_stream s fn = (Except.error (noneAttr "load_stream"), s,
      [Event.log "Failed to load_stream file" (noneAttr "load_stream")]) ∧
    Storage.load s fn false = (Except.error (noneAttr "load_once"), s,
      [Event.log "Failed to load_once file" (noneAttr "load_once"),
       Event.log "Failed to load file" (noneAttr "load_once")]) ∧
    Storage.load s fn true = (Except.error (noneAttr "load_stream"), s,
      [Event.log "Failed to load_stream file" (noneAttr "load_stream"),
       Event.log "Failed to load file" (noneAttr "load_stream")]) ∧
    Storage.download s fn tgt = (Except.error (noneAttr "download"), s,
      [Event.log "Failed to download file" (noneAttr "download")]) ∧
    Storage.exist s fn = (Except.error (noneAttr "exists"), s,
      [Event.log "Failed to check file exists" (noneAttr "exists")]) ∧
    Storage.delete s fn = (Except.error (noneAttr "delete"), s,
      [Event.log "Failed to delete file" (noneAttr "delete")]) := by
  obtain ⟨r⟩ := s
  cases h
  exact ⟨rfl, rfl, rfl, rfl, rfl, rfl, rfl, rfl⟩

/-- Witness for C9 on the freshly constructed facade. -/
theorem uninitialized_raises_witness :
    Storage.save Storage.mkUninit "a.txt" [104]
      = (Except.error (noneAttr "save"), Storage.mkUninit,
        [Event.log "Failed to save file" (noneAttr "save")]) ∧
    Storage.load_once Storage.mkUninit "a.txt"
      = (Except.error (noneAttr "load_once"), Storage.mkUninit,
        [Event.log "Failed to load_once file" (noneAttr "load_once")]) ∧
    Storage.load_stream Storage.mkUninit "a.txt"
      = (Except.error (noneAttr "load_stream"), Storage.mkUninit,
        [Event.log "Failed to load_stream file" (noneAttr "load_stream")]) ∧
    Storage.load Storage.mkUninit "a.txt" false
      = (Except.error (noneAttr "load_once"), Storage.mkUninit,
        [Event.log "Failed to load_once file" (noneAttr "load_once"),
         Event.log "Failed to load file" (noneAttr "load_once")]) ∧
    Storage.load Storage.mkUninit "a.txt" true
      = (Except.error (noneAttr "load_stream"), Storage.mkUninit,
        [Event.log "Failed to load_stream file" (noneAttr "load_stream"),
         Event.log "Failed to load file" (noneAttr "load_stream")]) ∧
    Storage.download Storage.mkUninit "a.txt" "tmp"
      = (Except.error (noneAttr "download"), Storage.mkUninit,
        [Event.log "Failed to download file" (noneAttr "download")]) ∧
    Storage.exist Storage.mkUninit "a.txt"
      = (Except.error (noneAttr "exists"), Storage.mkUninit,
        [Event.log "Failed to check file exists" (noneAttr "exists")]) ∧
    Storage.delete Storage.mkUninit "a.txt"
      = (Except.error (noneAttr "delete"), Storage.mkUninit,
        [Event.log "Failed to delete file" (noneAttr "delete")]) :=
  uninitialized_raises Storage.mkUninit "a.txt" [104] "tmp" rfl

/-- C10: the facade's `load_stream` returns the very generator object
the driver produced, with no wrapper around it and no log event, so
its error handling covers only the generator-creation call: a failure
raised there is logged and re-raised, while a failure a generator step
raises lazily reaches the iterating consumer directly (iterating a
generator whose step throws surfaces that exception), never passing
through the facade again. -/
theorem load_stream_generator_pass_through (s : Storage)
    (runner : BaseStorage) (fn : String) (g : Gen) (e : Exc)
    (h : s.storage_runner = some runner) :
    (runner.load_stream fn = Except.ok g →
      Storage.load_stream s fn = (Except.ok g, s, [])) ∧
    (runner.load_stream fn = Except.error e →
      Storage.load_stream s fn =
        (Except.error e, s, [Event.log "Failed to load_stream file" e])) ∧
    iterateGen (GenStep.throwE e :: g.steps) = Except.error e := by
  obtain ⟨r⟩ := s
  cases h
  refine ⟨?_, ?_, rfl⟩
  · intro hg; simp [Storage.load_stream, hg]
  · intro hg; simp [Storage.load_stream, hg]

/-- Witness for C10: `demoRunner.load_stream` yields `demoGen`, and
the facade returns that same object with an empty trace. -/
theorem load_stream_generator_pass_through_witness :
    (demoRunner.load_stream "a.txt" = Except.ok demoGen →
      Storage.load_stream demoStorage "a.txt"
        = (Except.ok demoGen, demoStorage, [])) ∧
    (demoRunner.load_stream "a.txt" = Except.error (Exc.transportError "boom") →
      Storage.load_stream demoStorage "a.txt"
        = (Except.error (Exc.transportError "boom"), demoStorage,
          [Event.log "Failed to load_stream file" (Exc.transportError "boom")])) ∧
    iterateGen (GenStep.throwE (Exc.transportError "boom") :: demoGen.steps)
      = Except.error (Exc.transportError "boom") :=
  load_stream_generator_pass_through demoStorage demoRunner "a.txt" demoGen
    (Exc.transportError "boom") rfl

end ExtStorage
